import Mathlib

/-!
Verification development for the pulsekids PPG (photoplethysmography) pipeline.

The definitions below are a shallow embedding of the JavaScript sources:

* `src/unnamed/part_000` — `FingerDetector` (hysteresis state machine, confidence);
* `src/App.js` — `RealPPGProcessor` (signal buffer, signal conditioning, peak
  detection, heart-rate / blood-pressure estimation, confidence scoring,
  per-frame orchestration) and `EnhancedPPGProcessor` (four parallel buffers);
* `src/PPGAlgorithm.js` — `AdvancedPPGProcessor` (four parallel buffers,
  median smoothing of the heart-rate history).

JavaScript numbers are modelled as `ℚ` (all arithmetic the claims exercise is
exact rational arithmetic; `Math.sqrt` / `Math.log10`, which are irrational,
only occur in quantities that are passed in as explicit oracle parameters and
are never computed by the embedding).  `Math.round` is `jsRound` (round half
towards positive infinity, the JS semantics for the positive values that occur
here).  Fallible JS functions returning `null` are modelled with `Option`.
-/

namespace PulseKids

set_option maxRecDepth 4000000

/-- JavaScript `Math.round` for the (positive) quantities occurring in the
pipeline: round half away from zero upwards, i.e. `⌊q + 1/2⌋`. -/
def jsRound (q : ℚ) : ℤ := ⌊q + 1/2⌋

/-- Least element of a list of rationals (JS `Math.min(...signal)`); the seed
`l.headD 0` is irrelevant for the nonempty lists the pipeline produces. -/
def listMin (l : List ℚ) : ℚ := l.foldl min (l.headD 0)

/-- Greatest element of a list of rationals (JS `Math.max(...signal)`). -/
def listMax (l : List ℚ) : ℚ := l.foldl max (l.headD 0)

/-- Arithmetic mean of a list (`reduce((s,v)=>s+v,0)/length`). -/
def meanOf (l : List ℚ) : ℚ := l.sum / (l.length : ℚ)

/-- Shared push-then-evict-one step used by `RealPPGProcessor.addToBuffer`,
`updateHeartRateHistory` and `updateBPHistory` (src/App.js): `push(x)` followed
by `if (length > cap) shift()`. -/
def pushBounded {α : Type} (l : List α) (x : α) (cap : ℕ) : List α :=
  let l' := l ++ [x]
  if cap < l'.length then l'.tail else l'

/-! ## FingerDetector (src/unnamed/part_000) -/

/-- A pixel coordinate of a contour point. -/
structure Point where
  x : ℕ
  y : ℕ
deriving DecidableEq, Repr

/-- Mutable detection state of `FingerDetector`:
`consecutiveDetections` and `fingerDetected`. -/
structure FDState where
  consecutive : ℕ
  detected : Bool
deriving DecidableEq, Repr

/-- Constructor / `FingerDetector.reset()` state. -/
def FDState.init : FDState := ⟨0, false⟩

/-- `this.requiredDetections = 5` in the `FingerDetector` constructor. -/
def requiredDetections : ℕ := 5

/-- The value returned by `FingerDetector.detectFinger`. -/
structure Detection where
  fingerDetected : Bool
  confidence : ℚ
  contour : Option (List Point)
deriving DecidableEq

/-- `FingerDetector.detectFinger` (src/unnamed/part_000, lines 21–56).  The
image-analysis front end (HSV conversion, skin mask, flood-fill contours,
shape analysis) culminates in `findFingerContour`, whose per-frame outcome is
the `contour` argument here: `some pts` when a finger-shaped contour was
found this frame, `none` otherwise.  The function returns the detection
record and the updated state. -/
def detectFinger (fd : FDState) (contour : Option (List Point)) :
    Detection × FDState :=
  match contour with
  | some c =>
    let consec := fd.consecutive + 1
    let det := if requiredDetections ≤ consec then true else fd.detected
    (⟨det, (consec : ℚ) / (requiredDetections : ℚ), some c⟩, ⟨consec, det⟩)
  | none =>
    (⟨false, (0 : ℚ) / (requiredDetections : ℚ), none⟩, ⟨0, false⟩)

/-- State transition of a single `detectFinger` call. -/
def detectStep (fd : FDState) (contour : Option (List Point)) : FDState :=
  (detectFinger fd contour).2

/-- Detector state after a sequence of per-frame classification outcomes,
starting from the constructor state. -/
def runDetect (l : List (Option (List Point))) : FDState :=
  l.foldl detectStep FDState.init

/-- Number of trailing consecutive positive classifications of a sequence. -/
def trailingSome (l : List (Option (List Point))) : ℕ :=
  (l.reverse.takeWhile Option.isSome).length

/-! ## RealPPGProcessor (src/App.js) — constants -/

/-- `this.maxBufferSize = 300`. -/
def maxBufferSize : ℕ := 300

/-- `this.minValidSamples = 90`. -/
def minValidSamples : ℕ := 90

/-- `this.maxHistorySize = 10` (heart-rate history capacity). -/
def maxHistorySize : ℕ := 10

/-- `this.maxBPHistorySize = 5` (blood-pressure history capacity). -/
def maxBPHistorySize : ℕ := 5

/-- `this.minHeartRate = 60` (confidence validity bound). -/
def minHeartRate : ℤ := 60

/-- `this.maxHeartRate = 200` (confidence validity bound). -/
def maxHeartRate : ℤ := 200

/-- `this.snrThreshold = 3.0`. -/
def snrThreshold : ℚ := 3

/-- `this.stabilityThreshold = 0.8`. -/
def stabilityThreshold : ℚ := 0.8

/-- `this.amplitudeThreshold = 0.1`. -/
def amplitudeThreshold : ℚ := 0.1

/-- `this.processingInterval = 33` (ms, the inter-frame throttle). -/
def processingInterval : ℚ := 33

/-! ## RealPPGProcessor — data model -/

/-- One signal-buffer entry as produced by `extractPPGSignal`:
`{ timestamp, value, r, g, b }`. -/
structure Sample where
  timestamp : ℚ
  value : ℚ
  r : ℚ
  g : ℚ
  b : ℚ
deriving DecidableEq, Repr

/-- A `{systolic, diastolic}` pair (both `Math.round`ed integers). -/
structure BP where
  systolic : ℤ
  diastolic : ℤ
deriving DecidableEq, Repr

/-- One point of `getDisplaySignal()`'s output. -/
structure DisplayPoint where
  x : ℕ
  y : ℚ
  timestamp : ℚ
deriving DecidableEq, Repr

/-- The per-frame result object returned by `processFrame`.  JS objects carry
different field subsets on different paths; fields missing on a path are
`none` here (matching JS `undefined`/`null`, neither of which is a numeric
reading). -/
structure Result where
  fingerDetected : Bool
  heartRate : Option ℤ := none
  bloodPressure : Option BP := none
  confidence : ℚ
  quality : String
  signalData : Option (List DisplayPoint) := none
  message : Option String := none
  temperature : Option ℚ := none
  childAge : Option ℕ := none
deriving DecidableEq

/-- The record computed by `calculateVitalSigns`. -/
structure VitalSigns where
  heartRate : Option ℤ
  bloodPressure : Option BP
  confidence : ℚ
  quality : String
deriving DecidableEq

/-- The mutable session state of a `RealPPGProcessor` instance. -/
structure RealState where
  fd : FDState
  signalBuffer : List Sample
  heartRateHistory : List ℤ
  bpHistory : List BP
  temperature : ℚ
  childAge : ℕ
  lastProcessTime : ℚ
deriving DecidableEq

/-- Per-frame inputs and environment oracles of one `processFrame` call:
`currentTime` is `Date.now()`; `width`/`height` are the frame dimensions;
`contour` is the outcome of the finger classifier for this frame (see
`detectFinger`); `tsSeconds` is `Date.now()/1000` at signal extraction;
`noise` is the sampled `(Math.random()-0.5)*0.02`; `snr`, `stability` and
`stdDev` stand for `calculateSNR` (uses `Math.log10`), `calculateStability`
and the pulse-feature `Math.sqrt(variance)` — irrational quantities supplied
as oracles; `diastolicRand` is the `Math.random()` draw of
`calculateDiastolicBP`; `vitalsThrow` models an unexpected exception thrown
inside the `calculateVitalSigns` stage (caught at its `try/catch` boundary,
which runs before any history mutation). -/
structure FrameEnv where
  currentTime : ℚ
  width : ℕ
  height : ℕ
  contour : Option (List Point)
  tsSeconds : ℚ
  noise : ℚ
  snr : ℚ
  stability : ℚ
  stdDev : ℚ
  diastolicRand : ℚ
  vitalsThrow : Bool
deriving DecidableEq

/-! ## RealPPGProcessor — signal acquisition -/

/-- `extractImageData` (src/App.js): builds a `width*height*4` RGBA array with
every pixel set to `(128,128,128,255)`; it never returns `null` except from
its dead `catch` branch. -/
def extractImageData (width height : ℕ) : List ℕ :=
  (List.replicate (width * height) ([128, 128, 128, 255] : List ℕ)).flatten

/-- `extractPPGSignal(imageData, fingerContour)` (src/App.js, lines 1532–1576):
averages R/G/B over the in-bounds contour points (index
`(y*Math.sqrt(len/4)+x)*4`), returns `null` for a missing/empty contour or
when no point is in bounds, and otherwise a sample whose `value` is the
normalized green average plus the sampled noise. -/
def extractPPGSignal (imageData : List ℕ) (contour : Option (List Point))
    (tsSeconds noise : ℚ) : Option Sample :=
  match contour with
  | none => none
  | some pts =>
    if pts.isEmpty then none
    else
      let W := Nat.sqrt (imageData.length / 4)
      let valid := pts.filter fun p => (p.y * W + p.x) * 4 < imageData.length - 3
      if valid.length = 0 then none
      else
        let totR := (valid.map fun p => ((imageData.getD ((p.y * W + p.x) * 4) 0 : ℚ))).sum
        let totG := (valid.map fun p => ((imageData.getD ((p.y * W + p.x) * 4 + 1) 0 : ℚ))).sum
        let totB := (valid.map fun p => ((imageData.getD ((p.y * W + p.x) * 4 + 2) 0 : ℚ))).sum
        let avgR := totR / (valid.length : ℚ)
        let avgG := totG / (valid.length : ℚ)
        let avgB := totB / (valid.length : ℚ)
        some ⟨tsSeconds, avgG / 255 + noise, avgR / 255, avgG / 255, avgB / 255⟩

/-- `RealPPGProcessor.addToBuffer` (src/App.js, lines 1579–1586): push, then a
single `shift()` when the length exceeds `maxBufferSize`. -/
def addToBuffer (buf : List Sample) (s : Sample) : List Sample :=
  pushBounded buf s maxBufferSize

/-- `updateHeartRateHistory` (src/App.js, lines 2104–2109). -/
def updateHeartRateHistory (hist : List ℤ) (hr : ℤ) : List ℤ :=
  pushBounded hist hr maxHistorySize

/-- `updateBPHistory` (src/App.js). -/
def updateBPHistory (hist : List BP) (bp : BP) : List BP :=
  pushBounded hist bp maxBPHistorySize

/-! ## RealPPGProcessor — signal conditioning -/

/-- `bandpassFilter` (src/App.js, lines 1664–1694): the first `order = 4`
samples are copied, every later sample is the fixed five-tap convolution
`0.1·s[i] + 0.2·s[i-1] + 0.4·s[i-2] + 0.2·s[i-3] + 0.1·s[i-4]` (the computed
normalized frequencies are unused by the source). -/
def bandpassFilter (signal : List ℚ) : List ℚ :=
  (List.range signal.length).map fun i =>
    if i < 4 then signal.getD i 0
    else
      (0.1 : ℚ) * signal.getD i 0 + (0.2 : ℚ) * signal.getD (i - 1) 0 +
        (0.4 : ℚ) * signal.getD (i - 2) 0 + (0.2 : ℚ) * signal.getD (i - 3) 0 +
        (0.1 : ℚ) * signal.getD (i - 4) 0

/-- `savitzkyGolayFilter(signal, 5, 2)` (src/App.js, lines 1697–1724): copies
the two samples at each edge and replaces each interior sample by the
five-point moving average. -/
def savitzkyGolayFilter (signal : List ℚ) : List ℚ :=
  (List.range signal.length).map fun i =>
    if 2 ≤ i ∧ i + 2 < signal.length then
      ((List.range 5).map fun j => signal.getD (i + j - 2) 0).sum / 5
    else signal.getD i 0

/-- `normalizeSignal` (src/App.js, lines 1727–1742): rescale to `[0,1]` by the
window's min/max; a constant window maps to the constant `0.5`. -/
def normalizeSignal (signal : List ℚ) : List ℚ :=
  let mn := listMin signal
  let mx := listMax signal
  if mx - mn = 0 then signal.map fun _ => (0.5 : ℚ)
  else signal.map fun v => (v - mn) / (mx - mn)

/-- `applySignalProcessing` (src/App.js, lines 1643–1661): DC removal, the
band-pass convolution, Savitzky–Golay smoothing, then normalization. -/
def applySignalProcessing (signal : List ℚ) : List ℚ :=
  let m := meanOf signal
  normalizeSignal (savitzkyGolayFilter (bandpassFilter (signal.map fun v => v - m)))

/-! ## RealPPGProcessor — heart rate -/

/-- `minPeakHeight = 0.6` in `findPeaks`. -/
def minPeakHeight : ℚ := 0.6

/-- `minPeakDistance = 0.3` seconds in `findPeaks`. -/
def minPeakDistance : ℚ := 0.3

/-- One accepted peak of `findPeaks`. -/
structure Peak where
  idx : ℕ
  timestamp : ℚ
  value : ℚ
deriving DecidableEq, Repr

/-- `findPeaks(signal, timestamps)` (src/App.js, lines 1779–1810): scan
`i = 1 .. length-2`; accept `i` when `signal[i]` strictly exceeds both
neighbours and `minPeakHeight`, and lies at least `minPeakDistance` seconds
after the previously accepted peak. -/
def findPeaks (signal timestamps : List ℚ) : List Peak :=
  (List.range' 1 (signal.length - 2)).foldl
    (fun peaks i =>
      let current := signal.getD i 0
      let distOk : Bool :=
        match peaks.getLast? with
        | none => true
        | some p => decide (minPeakDistance ≤ timestamps.getD i 0 - p.timestamp)
      if signal.getD (i - 1) 0 < current ∧ signal.getD (i + 1) 0 < current ∧
          minPeakHeight < current ∧ distOk = true then
        peaks ++ [⟨i, timestamps.getD i 0, current⟩]
      else peaks)
    []

/-- `applyAgeConstraints` (src/App.js, lines 1812–1829): clamp the raw BPM to
the age band. -/
def applyAgeConstraints (age : ℕ) (heartRate : ℚ) : ℚ :=
  let band : ℚ × ℚ :=
    if age ≤ 1 then (100, 160)
    else if age ≤ 3 then (80, 140)
    else if age ≤ 5 then (70, 120)
    else if age ≤ 7 then (65, 110)
    else (60, 100)
  max band.1 (min band.2 heartRate)

/-- `calculateHeartRate(signal, timestamps)` (src/App.js, lines 1747–1776):
`null` with fewer than two peaks, otherwise the rounded age-clamped
`60 / mean(inter-peak interval)`. -/
def calculateHeartRate (signal timestamps : List ℚ) (age : ℕ) : Option ℤ :=
  let peaks := findPeaks signal timestamps
  if peaks.length < 2 then none
  else
    let intervals := (peaks.zip peaks.tail).map fun q => q.2.timestamp - q.1.timestamp
    let avgInterval := intervals.sum / (intervals.length : ℚ)
    some (jsRound (applyAgeConstraints age (60 / avgInterval)))

/-! ## RealPPGProcessor — blood pressure -/

/-- `getAgeAdjustment` (src/App.js, lines 1960–1966). -/
def getAgeAdjustment (age : ℕ) : ℚ :=
  if age ≤ 1 then -20
  else if age ≤ 3 then -15
  else if age ≤ 5 then -10
  else if age ≤ 7 then -5
  else 0

/-- `calculateSystolicBP(pulseFeatures, heartRate)` (src/App.js, lines
1915–1944).  `amplitude` is `pulseFeatures.amplitude`, i.e. the standard
deviation `Math.sqrt(variance)` of the conditioned window (an irrational
quantity, hence a parameter here); the heart rate is the integer produced by
`calculateHeartRate`.  Baseline 100, piecewise heart-rate and amplitude
adjustments, age offset, then clamp to `[70, 140]`. -/
def calculateSystolicBP (amplitude : ℚ) (heartRate : ℤ) (age : ℕ) : ℚ :=
  let base : ℚ := 100
  let base :=
    if 100 < heartRate then base + ((heartRate : ℚ) - 100) * 0.3
    else if heartRate < 70 then base - (70 - (heartRate : ℚ)) * 0.2
    else base
  let base :=
    if (0.3 : ℚ) < amplitude then base + 10
    else if amplitude < (0.1 : ℚ) then base - 5
    else base
  let base := base + getAgeAdjustment age
  max 70 (min 140 base)

/-- `calculateDiastolicBP(pulseFeatures, systolic)` (src/App.js, lines
1947–1957): `Math.round(systolic * (0.65 + (Math.random() - 0.5) * 0.1))`;
the random draw is the `rand` parameter. -/
def calculateDiastolicBP (systolic rand : ℚ) : ℤ :=
  jsRound (systolic * ((0.65 : ℚ) + (rand - 0.5) * 0.1))

/-- `applyTemperatureCompensation` (src/App.js, lines 1969–1980):
`+2 mmHg` per degree above `37.0`, symmetrically below. -/
def applyTemperatureCompensation (temperature bpValue : ℚ) : ℚ :=
  bpValue + (temperature - 37) * 2

/-- `calculateBloodPressure(signal, heartRate)` (src/App.js, lines 1831–1856):
`null` without a heart rate; otherwise systolic from the pulse features (the
`stdDev` amplitude oracle), diastolic from the randomized ratio, temperature
compensation applied to both, and both `Math.round`ed. -/
def calculateBloodPressure (stdDev : ℚ) (heartRate : Option ℤ)
    (temperature : ℚ) (age : ℕ) (rand : ℚ) : Option BP :=
  match heartRate with
  | none => none
  | some hr =>
    let systolic := calculateSystolicBP stdDev hr age
    let diastolic := calculateDiastolicBP systolic rand
    some ⟨jsRound (applyTemperatureCompensation temperature systolic),
          jsRound (applyTemperatureCompensation temperature (diastolic : ℚ))⟩

/-! ## RealPPGProcessor — confidence and quality -/

/-- `calculateAmplitude` (src/App.js): `max - min` of the conditioned signal
(exact rational arithmetic, computed by the embedding). -/
def calculateAmplitude (signal : List ℚ) : ℚ := listMax signal - listMin signal

/-- `calculateConfidence(signal, heartRate)` (src/App.js, lines 1983–2023):
weighted sum of the SNR (0.3), stability (0.3) and amplitude (0.2)
sub-scores, each saturating at its threshold, plus 0.2 for a physiologically
valid heart rate, clamped to `[0,1]`.  `snr` and `stability` are the
irrational signal metrics, supplied as oracles. -/
def calculateConfidence (snr stability amplitude : ℚ) (heartRate : Option ℤ) : ℚ :=
  let c := if snrThreshold < snr then (0.3 : ℚ) else snr / snrThreshold * 0.3
  let c := c + (if stabilityThreshold < stability then (0.3 : ℚ)
                else stability / stabilityThreshold * 0.3)
  let c := c + (if amplitudeThreshold < amplitude then (0.2 : ℚ)
                else amplitude / amplitudeThreshold * 0.2)
  let c := c + (match heartRate with
    | some hr => if minHeartRate ≤ hr ∧ hr ≤ maxHeartRate then (0.2 : ℚ) else 0
    | none => 0)
  min 1 (max 0 c)

/-- `assessSignalQuality` (src/App.js, lines 2090–2101): the fixed threshold
ladder on confidence. -/
def assessSignalQuality (confidence : ℚ) : String :=
  if (0.8 : ℚ) ≤ confidence then "excellent"
  else if (0.6 : ℚ) ≤ confidence then "good"
  else if (0.4 : ℚ) ≤ confidence then "fair"
  else "poor"

/-- `getDisplaySignal` (src/App.js, lines 2121–2138): the last 60 buffered
samples as display points. -/
def getDisplaySignal (buf : List Sample) : List DisplayPoint :=
  (buf.drop (buf.length - 60)).enum.map fun p => ⟨p.1, p.2.value, p.2.timestamp⟩

/-! ## RealPPGProcessor — orchestration -/

/-- `calculateVitalSigns` (src/App.js, lines 1589–1641).  The `try/catch`
around the stage is modelled by `env.vitalsThrow`: an exception anywhere in
the computation phase (which precedes every history mutation in the source)
yields the catch-branch record and leaves the state untouched.  On the
normal path: condition the buffered green-channel values, estimate heart
rate and blood pressure, score confidence and quality, then update the two
histories (only for non-`null` estimates). -/
def calculateVitalSigns (st : RealState) (env : FrameEnv) : VitalSigns × RealState :=
  if env.vitalsThrow then (⟨none, none, 0, "error"⟩, st)
  else if st.signalBuffer.length < minValidSamples then
    (⟨none, none, 0, "insufficient_data"⟩, st)
  else
    let values := st.signalBuffer.map Sample.value
    let timestamps := st.signalBuffer.map Sample.timestamp
    let filteredSignal := applySignalProcessing values
    let heartRate := calculateHeartRate filteredSignal timestamps st.childAge
    let bloodPressure :=
      calculateBloodPressure env.stdDev heartRate st.temperature st.childAge env.diastolicRand
    let confidence :=
      calculateConfidence env.snr env.stability (calculateAmplitude filteredSignal) heartRate
    let quality := assessSignalQuality confidence
    let st1 := match heartRate with
      | some hr => { st with heartRateHistory := updateHeartRateHistory st.heartRateHistory hr }
      | none => st
    let st2 := match bloodPressure with
      | some bp => { st1 with bpHistory := updateBPHistory st1.bpHistory bp }
      | none => st1
    (⟨heartRate, bloodPressure, confidence, quality⟩, st2)

/-- The "not detected" result of `processFrame`. -/
def notDetectedResult : Result :=
  { fingerDetected := false, confidence := 0, quality := "poor",
    message := some ("Please place your finger properly on the camera") }

/-- The progress message of the "collecting" result. -/
def mkCollectingMessage (n : ℕ) : String :=
  "Collecting data... " ++ toString n ++ "/" ++ toString minValidSamples

/-- The "collecting" progress result of `processFrame`. -/
def collectingResult (n : ℕ) : Result :=
  { fingerDetected := true,
    confidence := (n : ℚ) / (minValidSamples : ℚ),
    quality := "collecting",
    message := some (mkCollectingMessage n) }

/-- The full-estimation result assembled by `processFrame` (buffer already
appended; `st` is the post-stage state). -/
def fullResult (st : RealState) (vs : VitalSigns) : Result :=
  { fingerDetected := true,
    heartRate := vs.heartRate,
    bloodPressure := vs.bloodPressure,
    confidence := vs.confidence,
    quality := vs.quality,
    signalData := some (getDisplaySignal st.signalBuffer),
    temperature := some st.temperature,
    childAge := some st.childAge }

/-- `RealPPGProcessor.processFrame` (src/App.js, lines 1437–1500): throttle,
image extraction, finger detection, signal extraction, buffer append,
minimum-sample gating, then either the collecting result or the full
estimation.  Returns the result (or `null`) and the updated state. -/
def processFrame (st : RealState) (env : FrameEnv) : Option Result × RealState :=
  if env.currentTime - st.lastProcessTime < processingInterval then (none, st)
  else
    let st1 : RealState := { st with lastProcessTime := env.currentTime }
    let imageData := extractImageData env.width env.height
    let d := detectFinger st1.fd env.contour
    let st2 : RealState := { st1 with fd := d.2 }
    if d.1.fingerDetected = false then (some notDetectedResult, st2)
    else
      match extractPPGSignal imageData env.contour env.tsSeconds env.noise with
      | none => (none, st2)
      | some sample =>
        let st3 : RealState := { st2 with signalBuffer := addToBuffer st2.signalBuffer sample }
        if minValidSamples ≤ st3.signalBuffer.length then
          let p := calculateVitalSigns st3 env
          (some (fullResult p.2 p.1), p.2)
        else (some (collectingResult st3.signalBuffer.length), st3)

/-! ## AdvancedPPGProcessor (src/PPGAlgorithm.js) and
EnhancedPPGProcessor (src/App.js) — the simulated processors -/

/-- One simulated RGB sample with its timestamp. -/
structure RGBT where
  r : ℚ
  g : ℚ
  b : ℚ
  t : ℚ
deriving DecidableEq, Repr

/-- The four parallel buffers of the simulated processors. -/
structure SimState where
  red : List ℚ
  green : List ℚ
  blue : List ℚ
  ts : List ℚ
deriving DecidableEq, Repr

/-- Constructor / `reset()` state of the simulated processors
(`AdvancedPPGProcessor.reset`, src/PPGAlgorithm.js lines 341–349, clears all
four buffers; the remaining cleared fields — `processedSignal`, `peaks`,
`heartRateHistory` — are not part of the four parallel buffers). -/
def SimState.init : SimState := ⟨[], [], [], []⟩

/-- The `while (this.redBuffer.length > this.bufferSize)` eviction loop of
`addToBuffer` (src/PPGAlgorithm.js lines 78–91 and the identical
`EnhancedPPGProcessor.addToBuffer`, src/App.js lines 91–104): while the red
buffer exceeds capacity 300, `shift()` all four buffers. -/
def trimLoop (red green blue ts : List ℚ) : List ℚ × List ℚ × List ℚ × List ℚ :=
  if 300 < red.length then trimLoop red.tail green.tail blue.tail ts.tail
  else (red, green, blue, ts)
termination_by red.length
decreasing_by simp [List.length_tail]; omega

/-- `addToBuffer(rgbValues, timestamp)` of the simulated processors: push the
sample onto all four buffers, then run the eviction loop. -/
def simAddToBuffer (st : SimState) (v : RGBT) : SimState :=
  let q := trimLoop (st.red ++ [v.r]) (st.green ++ [v.g]) (st.blue ++ [v.b]) (st.ts ++ [v.t])
  ⟨q.1, q.2.1, q.2.2.1, q.2.2.2⟩

/-- Run `simAddToBuffer` over a whole arrival sequence, from empty buffers. -/
def simAddAll (l : List RGBT) : SimState :=
  l.foldl simAddToBuffer SimState.init

/-- The operations mutating the four parallel buffers.  `frame busy v` is one
`processFrame` call: the simulated RGB extraction yields `v`, `busy` is the
`EnhancedPPGProcessor.isProcessing` early-out (absent, i.e. `false`, in
`AdvancedPPGProcessor`); the downstream metric computations of
`processFrame`/`calculateMetrics` only read `greenBuffer` and write the
separate history fields, so their effect on the four buffers is the
identity.  `add v` is a direct `addToBuffer` call and `reset` clears the
buffers. -/
inductive SimOp where
  | frame (busy : Bool) (v : RGBT)
  | add (v : RGBT)
  | reset
deriving DecidableEq

/-- Effect of one operation on the four parallel buffers. -/
def simStep (st : SimState) : SimOp → SimState
  | .frame busy v => if busy then st else simAddToBuffer st v
  | .add v => simAddToBuffer st v
  | .reset => SimState.init

/-- State of the four buffers after an arbitrary operation sequence, starting
from the constructor state. -/
def simRun (ops : List SimOp) : SimState :=
  ops.foldl simStep SimState.init

/-- `getSmoothedHeartRate` (src/PPGAlgorithm.js, lines 278–288): the median of
the bounded heart-rate history (mean of the two central elements, rounded,
for even lengths), `null` when the history is empty. -/
def getSmoothedHeartRate (history : List ℤ) : Option ℤ :=
  if history.isEmpty then none
  else
    let sorted := history.mergeSort fun a b => decide (a ≤ b)
    let middle := sorted.length / 2
    if sorted.length % 2 = 0 then
      some (jsRound (((sorted.getD (middle - 1) 0 : ℚ) + (sorted.getD middle 0 : ℚ)) / 2))
    else some (sorted.getD middle 0)

/-! ## Derived session runs and concrete test fixtures -/

/-- The `RealPPGProcessor` signal buffer after appending a whole arrival
sequence with `addToBuffer`, starting from the empty buffer of `reset()`. -/
def realAddAll (l : List Sample) : List Sample := l.foldl addToBuffer []

/-- The state of `processFrame` after the throttle stamp, the detector update
and the buffer append — the state on which the gating decision and
`calculateVitalSigns` operate. -/
def appendedState (st : RealState) (env : FrameEnv) (sample : Sample) : RealState :=
  { st with lastProcessTime := env.currentTime,
            fd := (detectFinger st.fd env.contour).2,
            signalBuffer := addToBuffer st.signalBuffer sample }

/-- A one-point contour fixture (the in-bounds pixel of a 1×1 frame). -/
def dummyContour : List Point := [⟨0, 0⟩]

/-- The sample `extractPPGSignal` produces from the all-128 1×1 frame at
`tsSeconds = 9` with zero noise. -/
def s128 : Sample := ⟨9, 128/255, 128/255, 128/255, 128/255⟩

/-- A synthetic conditioned-buffer sample: impulse train of period 15 (at
buffer indices 10, 25, 40, 55, 70), timestamps spaced 0.1 s apart.  After
conditioning this yields strict peaks 1.5 s apart. -/
def cSample (i : ℕ) : Sample :=
  ⟨(i : ℚ) / 10, if i % 15 = 10 ∧ i < 85 then 1 else 0, 0, 0, 0⟩

/-- A full 90-sample buffer of the impulse-train fixture. -/
def cBuffer : List Sample := (List.range 90).map cSample

/-- A session state holding the impulse-train buffer and a heart-rate history
of two previous 100 BPM estimates. -/
def cState : RealState := ⟨⟨5, true⟩, cBuffer, [100, 100], [], 37, 5, 0⟩

/-- A non-throttled, finger-positive frame environment with benign oracles. -/
def cEnv : FrameEnv := ⟨100, 1, 1, some dummyContour, 9, 0, 5, 1, 0.2, 0.5, false⟩

/-- A session state with a 10-sample buffer (still collecting). -/
def gState : RealState := ⟨⟨5, true⟩, List.replicate 10 s128, [], [], 37, 5, 0⟩

/-- A non-throttled, finger-positive frame environment for the gating and
throttling fixtures. -/
def gEnv : FrameEnv := ⟨100, 1, 1, some dummyContour, 9, 0, 5, 1, 0.2, 0.5, false⟩

/-- A session state with an 89-sample buffer (one frame short of full
estimation). -/
def eState : RealState := ⟨⟨5, true⟩, List.replicate 89 s128, [], [], 37, 5, 0⟩

/-- A frame environment whose `calculateVitalSigns` stage throws. -/
def eEnv : FrameEnv := ⟨100, 1, 1, some dummyContour, 9, 0, 5, 1, 0.2, 0.5, true⟩

/-- The follow-up frame environment after `eEnv`: non-throttled and
fault-free. -/
def eEnv2 : FrameEnv := ⟨200, 1, 1, some dummyContour, 10, 0, 5, 1, 0.2, 0.5, false⟩

/-- A six-sample conditioned signal with two strict peaks. -/
def hrSig : List ℚ := [0, 1, 0, 0, 1, 0]

/-- Timestamps for `hrSig`, putting the two peaks 1.5 s apart. -/
def hrTs : List ℚ := [0, 1/2, 1, 3/2, 2, 5/2]

/-- The equal-length invariant of the four parallel buffers. -/
def eqLens (st : SimState) : Prop :=
  st.red.length = st.green.length ∧ st.green.length = st.blue.length ∧
    st.blue.length = st.ts.length

/-! ## Finger-detector hysteresis -/

theorem trailingSome_append_some (l : List (Option (List Point))) (c : List Point) :
    trailingSome (l ++ [some c]) = trailingSome l + 1 := by
  simp [trailingSome, List.reverse_append, List.takeWhile_cons, Option.isSome]

theorem trailingSome_append_none (l : List (Option (List Point))) :
    trailingSome (l ++ [none]) = 0 := by
  simp [trailingSome, List.reverse_append, List.takeWhile_cons, Option.isSome]

theorem runDetect_append (l : List (Option (List Point))) (x : Option (List Point)) :
    runDetect (l ++ [x]) = detectStep (runDetect l) x := by
  simp [runDetect, List.foldl_append]

/-- Characterization of the detector state after any classification sequence:
the counter equals the trailing run of positives, and `detected` holds
exactly when that run has reached `requiredDetections`. -/
theorem runDetect_spec (l : List (Option (List Point))) :
    (runDetect l).consecutive = trailingSome l ∧
      (runDetect l).detected = decide (requiredDetections ≤ trailingSome l) := by
  induction l using List.reverseRecOn with
  | nil => simp [runDetect, trailingSome, FDState.init, requiredDetections]
  | append_singleton l x ih =>
    obtain ⟨ih1, ih2⟩ := ih
    rw [runDetect_append]
    cases x with
    | none =>
      simp [detectStep, detectFinger, trailingSome_append_none, FDState.init,
        requiredDetections]
    | some c =>
      rw [trailingSome_append_some]
      unfold detectStep detectFinger
      simp only []
      constructor
      · simpa using ih1
      · simp only [ih1, ih2]
        by_cases h : requiredDetections ≤ trailingSome l + 1
        · simp [h]
        · have h' : ¬ requiredDetections ≤ trailingSome l := by omega
          simp [h, h']

/-- C3: `detected` becomes true exactly once `requiredDetections = 5`
consecutive positive classifications have accumulated (equivalently, the
trailing run of positives has length at least 5), the stored counter always
equals that trailing run, and a single negative classification resets the
state to counter 0 / not detected. -/
theorem finger_detection_hysteresis (l : List (Option (List Point))) :
    ((runDetect l).detected = true ↔ requiredDetections ≤ trailingSome l) ∧
    (runDetect l).consecutive = trailingSome l ∧
    runDetect (l ++ [none]) = FDState.init := by
  obtain ⟨h1, h2⟩ := runDetect_spec l
  refine ⟨?_, h1, ?_⟩
  · rw [h2]; simp
  · rw [runDetect_append]; rfl

/-- C9 (amended): on every call, the confidence returned by `detectFinger`
equals the updated consecutive-detection counter (the trailing positive run
of the classification history) divided by `requiredDetections`, with no
clamping. -/
theorem detector_confidence_unclamped (l : List (Option (List Point)))
    (x : Option (List Point)) :
    (detectFinger (runDetect l) x).1.confidence
      = (trailingSome (l ++ [x]) : ℚ) / (requiredDetections : ℚ) := by
  obtain ⟨h1, _⟩ := runDetect_spec l
  cases x with
  | none => rw [trailingSome_append_none]; simp [detectFinger]
  | some c =>
    rw [trailingSome_append_some]
    unfold detectFinger
    simp [h1]

/-- C9 (counterexample): after six consecutive positive classifications the
returned confidence is `6/5`, which exceeds 1 — the source never clamps
`consecutiveDetections / requiredDetections` to `[0,1]`. -/
theorem detector_confidence_exceeds_one_counterexample :
    (detectFinger (runDetect (List.replicate 5 (some dummyContour)))
        (some dummyContour)).1.confidence = 6/5 ∧
    1 < (detectFinger (runDetect (List.replicate 5 (some dummyContour)))
        (some dummyContour)).1.confidence := by
  constructor <;> with_unfolding_all decide

/-! ## Sliding-window buffers -/

theorem tail_append_single {α : Type} (a : List α) (x : α) (h : a ≠ []) :
    (a ++ [x]).tail = a.tail ++ [x] := by
  cases a with
  | nil => exact absurd rfl h
  | cons y ys => simp

/-- Appending one element to a buffer that is already in last-`cap` form and
evicting down to `cap` again yields the last-`cap` form of the extended
arrival sequence. -/
theorem drop_push {α : Type} (l : List α) (x : α) (cap : ℕ) (h0 : 0 < cap) :
    (l.drop (l.length - cap) ++ [x]).drop ((l.drop (l.length - cap) ++ [x]).length - cap)
      = (l ++ [x]).drop ((l ++ [x]).length - cap) := by
  by_cases h : l.length < cap
  · have h1 : l.length - cap = 0 := by omega
    rw [h1, List.drop_zero]
  · push_neg at h
    have hlen : (l.drop (l.length - cap)).length = cap := by simp; omega
    have h1 : (l.drop (l.length - cap) ++ [x]).length - cap = 1 := by simp [hlen]
    have hne : l.drop (l.length - cap) ≠ [] := by
      intro hc; rw [hc] at hlen; simp at hlen; omega
    rw [h1, List.drop_one, tail_append_single _ _ hne, List.tail_drop]
    have h2 : (l ++ [x]).length - cap = (l.length - cap + 1) := by simp; omega
    rw [h2, List.drop_append_of_le_length (by omega)]

/-- `pushBounded` on a buffer within capacity is exactly "append and keep the
last `cap`". -/
theorem pushBounded_eq_drop {α : Type} (buf : List α) (x : α) (cap : ℕ)
    (h : buf.length ≤ cap) :
    pushBounded buf x cap = (buf ++ [x]).drop ((buf ++ [x]).length - cap) := by
  unfold pushBounded
  by_cases hc : cap < (buf ++ [x]).length
  · have h1 : buf.length = cap := by simp at hc; omega
    have h2 : (buf ++ [x]).length - cap = 1 := by simp [h1]
    simp only [hc, if_pos, h2, List.drop_one]
  · have h2 : (buf ++ [x]).length - cap = 0 := by simp at hc ⊢; omega
    simp only [hc, if_neg, not_false_iff, h2, List.drop_zero]

/-- `realAddAll` keeps exactly the last `maxBufferSize` arrivals, in order. -/
theorem realAddAll_eq (l : List Sample) :
    realAddAll l = l.drop (l.length - maxBufferSize) := by
  induction l using List.reverseRecOn with
  | nil => simp [realAddAll]
  | append_singleton l x ih =>
    have hstep : realAddAll (l ++ [x]) = addToBuffer (realAddAll l) x := by
      simp [realAddAll, List.foldl_append]
    rw [hstep, ih, addToBuffer, pushBounded_eq_drop _ _ _ (by simp [maxBufferSize]; omega),
      drop_push _ _ _ (by simp [maxBufferSize])]

/-- Unfolding lemma for the four-buffer eviction loop under the equal-length
invariant: it keeps the last 300 entries of each buffer. -/
theorem trimLoop_spec (n : ℕ) : ∀ (r g b t : List ℚ), r.length ≤ n →
    g.length = r.length → b.length = r.length → t.length = r.length →
    trimLoop r g b t = (r.drop (r.length - 300), g.drop (g.length - 300),
      b.drop (b.length - 300), t.drop (t.length - 300)) := by
  induction n with
  | zero =>
    intro r g b t hr hg hb ht
    rw [trimLoop]
    have h : ¬ 300 < r.length := by omega
    simp only [h, if_neg, not_false_iff]
    have : r.length - 300 = 0 := by omega
    simp [this, hg, hb, ht, Nat.le_zero.mp hr]
  | succ n ih =>
    intro r g b t hr hg hb ht
    rw [trimLoop]
    by_cases h : 300 < r.length
    · simp only [h, if_pos]
      rw [ih r.tail g.tail b.tail t.tail (by simp [List.length_tail]; omega)
        (by simp [List.length_tail]; omega) (by simp [List.length_tail]; omega)
        (by simp [List.length_tail]; omega)]
      have e1 : ∀ (z : List ℚ), z.length = r.length →
          z.tail.drop (z.tail.length - 300) = z.drop (z.length - 300) := by
        intro z hz
        rw [show z.tail = z.drop 1 from (List.drop_one z).symm, List.drop_drop]
        congr 1
        simp
        omega
      rw [e1 r rfl, e1 g hg, e1 b hb, e1 t ht]
    · simp only [h, if_neg, not_false_iff]
      have : r.length - 300 = 0 := by omega
      simp [this, hg, hb, ht]

/-- Each channel of `simAddAll` keeps exactly the last 300 arrivals. -/
theorem simAddAll_eq (l : List RGBT) :
    simAddAll l = ⟨(l.map RGBT.r).drop (l.length - 300),
      (l.map RGBT.g).drop (l.length - 300),
      (l.map RGBT.b).drop (l.length - 300),
      (l.map RGBT.t).drop (l.length - 300)⟩ := by
  induction l using List.reverseRecOn with
  | nil => simp [simAddAll, SimState.init]
  | append_singleton l x ih =>
    have hstep : simAddAll (l ++ [x]) = simAddToBuffer (simAddAll l) x := by
      simp [simAddAll, List.foldl_append]
    rw [hstep, ih]
    unfold simAddToBuffer
    have hlen : ∀ f : RGBT → ℚ,
        ((l.map f).drop (l.length - 300)).length = l.length - (l.length - 300) := by
      intro f; simp
    rw [trimLoop_spec (((l.map RGBT.r).drop (l.length - 300) ++ [x.r]).length)
      _ _ _ _ (le_refl _)
      (by simp) (by simp) (by simp)]
    have e1 : ∀ f : RGBT → ℚ,
        ((l.map f).drop (l.length - 300) ++ [f x]).drop
            (((l.map f).drop (l.length - 300) ++ [f x]).length - 300)
          = ((l ++ [x]).map f).drop (((l ++ [x])).length - 300) := by
      intro f
      have := drop_push (l.map f) (f x) 300 (by norm_num)
      simp only [List.length_map] at this ⊢
      rw [this]
      simp
    simp only []
    rw [e1 RGBT.r, e1 RGBT.g, e1 RGBT.b, e1 RGBT.t]

/-- C1: from an empty buffer, after appending `N` samples the
`RealPPGProcessor` signal buffer has length `min N 300` and, once `N`
exceeds the capacity, holds exactly the last 300 samples in arrival order
(oldest evicted first); the four-channel buffers of the simulated
processors behave identically. -/
theorem signal_buffer_fifo :
    (∀ l : List Sample,
      realAddAll l = l.drop (l.length - maxBufferSize) ∧
      (realAddAll l).length = min l.length maxBufferSize) ∧
    (∀ l : List RGBT,
      (simAddAll l).red = (l.map RGBT.r).drop (l.length - 300) ∧
      (simAddAll l).green = (l.map RGBT.g).drop (l.length - 300) ∧
      (simAddAll l).blue = (l.map RGBT.b).drop (l.length - 300) ∧
      (simAddAll l).ts = (l.map RGBT.t).drop (l.length - 300) ∧
      (simAddAll l).red.length = min l.length 300) := by
  constructor
  · intro l
    refine ⟨realAddAll_eq l, ?_⟩
    rw [realAddAll_eq l]
    simp
    omega
  · intro l
    rw [simAddAll_eq l]
    refine ⟨rfl, rfl, rfl, rfl, ?_⟩
    simp
    omega

/-- `simAddToBuffer` preserves the equal-length invariant. -/
theorem simAddToBuffer_eqLens (st : SimState) (v : RGBT) (h : eqLens st) :
    eqLens (simAddToBuffer st v) := by
  obtain ⟨h1, h2, h3⟩ := h
  unfold simAddToBuffer
  rw [trimLoop_spec ((st.red ++ [v.r]).length) _ _ _ _ (le_refl _)
    (by simp [h1]) (by simp [h1, h2]) (by simp [h1, h2, h3])]
  refine ⟨?_, ?_, ?_⟩ <;> simp [h1, h2, h3]

/-- Every operation preserves the equal-length invariant. -/
theorem simStep_eqLens (st : SimState) (op : SimOp) (h : eqLens st) :
    eqLens (simStep st op) := by
  cases op with
  | frame busy v =>
    cases busy with
    | false => exact simAddToBuffer_eqLens st v h
    | true => exact h
  | add v => exact simAddToBuffer_eqLens st v h
  | reset => exact ⟨rfl, rfl, rfl⟩

theorem simRun_aux (ops : List SimOp) : ∀ st : SimState, eqLens st →
    eqLens (ops.foldl simStep st) := by
  induction ops with
  | nil => intro st h; exact h
  | cons op ops ih => intro st h; exact ih _ (simStep_eqLens st op h)

/-- C10: in the simulated processors, after any sequence of `processFrame`,
`addToBuffer` and `reset` calls starting from the constructor state, the
four parallel buffers (`redBuffer`, `greenBuffer`, `blueBuffer`,
`timestamps`) all have the same length — channel values and timestamps can
never desynchronize. -/
theorem sim_buffers_length_sync (ops : List SimOp) :
    (simRun ops).red.length = (simRun ops).green.length ∧
    (simRun ops).green.length = (simRun ops).blue.length ∧
    (simRun ops).blue.length = (simRun ops).ts.length :=
  simRun_aux ops SimState.init ⟨rfl, rfl, rfl⟩

/-! ## Heart-rate estimation from peak intervals -/

theorem list_sum_const (l : List ℚ) (T : ℚ) (h : ∀ x ∈ l, x = T) :
    l.sum = (l.length : ℚ) * T := by
  induction l with
  | nil => simp
  | cons a l ih =>
    have ha : a = T := h a (List.mem_cons_self a l)
    have ih' := ih fun x hx => h x (List.mem_cons_of_mem a hx)
    simp [ha, ih']
    ring

/-- C4: the heart-rate estimator returns `null` whenever fewer than two peaks
are detected; and whenever the detected peaks are spaced exactly `T` seconds
apart (`T > 0`), the estimate is `round(60/T)` subject to the age-band
clamp. -/
theorem heart_rate_from_peak_intervals (signal timestamps : List ℚ) (age : ℕ) (T : ℚ) :
    ((findPeaks signal timestamps).length < 2 →
      calculateHeartRate signal timestamps age = none) ∧
    (0 < T →
      2 ≤ (findPeaks signal timestamps).length →
      (∀ q ∈ (findPeaks signal timestamps).zip (findPeaks signal timestamps).tail,
          q.2.timestamp - q.1.timestamp = T) →
      calculateHeartRate signal timestamps age
        = some (jsRound (applyAgeConstraints age (60 / T)))) := by
  constructor
  · intro h
    unfold calculateHeartRate
    simp only [h, if_pos]
  · intro hT hlen hsp
    unfold calculateHeartRate
    rw [if_neg (by omega)]
    have hall : ∀ x ∈ ((findPeaks signal timestamps).zip
        (findPeaks signal timestamps).tail).map
          (fun q => q.2.timestamp - q.1.timestamp), x = T := by
      intro x hx
      obtain ⟨q, hq, rfl⟩ := List.mem_map.mp hx
      exact hsp q hq
    have hzlen : (((findPeaks signal timestamps).zip
        (findPeaks signal timestamps).tail).map
          (fun q => q.2.timestamp - q.1.timestamp)).length
        = (findPeaks signal timestamps).length - 1 := by
      simp [List.length_zip]
    have hpos : 0 < (findPeaks signal timestamps).length - 1 := by omega
    dsimp only
    rw [list_sum_const _ T hall, hzlen]
    have hne : (((findPeaks signal timestamps).length - 1 : ℕ) : ℚ) ≠ 0 := by
      exact_mod_cast Nat.pos_iff_ne_zero.mp hpos
    rw [mul_div_cancel_left₀ _ hne]

/-- C4 witness: on the concrete signal `hrSig`/`hrTs` the two detected peaks
are 1.5 s apart, and `calculateHeartRate` returns `round(60/1.5) = 40`
clamped to the age-0 band `[100, 160]`, i.e. 100. -/
theorem heart_rate_from_peak_intervals_witness :
    2 ≤ (findPeaks hrSig hrTs).length ∧
    calculateHeartRate hrSig hrTs 0 = some 100 := by
  constructor
  · with_unfolding_all decide
  · have h := (heart_rate_from_peak_intervals hrSig hrTs 0 (3/2)).2
      (by norm_num) (by with_unfolding_all decide) (by with_unfolding_all decide)
    rw [h]
    with_unfolding_all decide

/-! ## Minimum-sample gating of processFrame -/

/-- C2: on an accepted (non-throttled, finger-detected, signal-extracted)
frame, while the appended buffer still holds fewer than
`minValidSamples = 90` samples, `processFrame` returns the `'collecting'`
result with confidence `bufferLength/90` and no numeric heart rate; as soon
as the appended buffer reaches 90 samples, the same call path returns the
full-estimation result built from `calculateVitalSigns` instead. -/
theorem minimum_sample_gating (st : RealState) (env : FrameEnv) (sample : Sample)
    (hthr : ¬ (env.currentTime - st.lastProcessTime < processingInterval))
    (hdet : (detectFinger st.fd env.contour).1.fingerDetected = true)
    (hsig : extractPPGSignal (extractImageData env.width env.height) env.contour
        env.tsSeconds env.noise = some sample) :
    ((addToBuffer st.signalBuffer sample).length < minValidSamples →
      (processFrame st env).1
          = some (collectingResult (addToBuffer st.signalBuffer sample).length) ∧
      (collectingResult (addToBuffer st.signalBuffer sample).length).heartRate = none ∧
      (collectingResult (addToBuffer st.signalBuffer sample).length).quality
          = "collecting" ∧
      (collectingResult (addToBuffer st.signalBuffer sample).length).confidence
          = ((addToBuffer st.signalBuffer sample).length : ℚ) / (minValidSamples : ℚ)) ∧
    (minValidSamples ≤ (addToBuffer st.signalBuffer sample).length →
      (processFrame st env).1
          = some (fullResult (calculateVitalSigns (appendedState st env sample) env).2
              (calculateVitalSigns (appendedState st env sample) env).1)) := by
  unfold processFrame
  rw [if_neg hthr]
  simp only [hdet, hsig, Bool.true_eq_false, if_neg, Bool.false_eq_true, not_false_iff]
  constructor
  · intro hlt
    rw [if_neg (by omega)]
    exact ⟨rfl, rfl, rfl, rfl⟩
  · intro hge
    rw [if_pos hge]
    rfl

/-- C2 witness: with a 10-sample buffer the 11th accepted frame yields the
collecting result with confidence `11/90`. -/
theorem minimum_sample_gating_witness :
    (addToBuffer gState.signalBuffer s128).length = 11 ∧
    (processFrame gState gEnv).1 = some (collectingResult 11) ∧
    (collectingResult 11).confidence = 11 / 90 ∧
    (collectingResult 11).heartRate = none := by
  have h := (minimum_sample_gating gState gEnv s128
    (by with_unfolding_all decide)
    (by with_unfolding_all decide)
    (by with_unfolding_all decide)).1 (by with_unfolding_all decide)
  have hlen : (addToBuffer gState.signalBuffer s128).length = 11 := by
    with_unfolding_all decide
  rw [hlen] at h
  exact ⟨hlen, h.1, by with_unfolding_all decide, h.2.1⟩

/-! ## Null returns and the inter-frame throttle -/

/-- `extractPPGSignal` succeeds on any nonempty contour with at least one
in-bounds point — exactly what `findContours` guarantees for every contour
it emits (component size above 100, pixel coordinates inside the image). -/
theorem extractPPGSignal_isSome (imageData : List ℕ) (pts : List Point)
    (ts noise : ℚ) (hne : pts ≠ [])
    (hp : ∃ p ∈ pts,
        (p.y * Nat.sqrt (imageData.length / 4) + p.x) * 4 < imageData.length - 3) :
    (extractPPGSignal imageData (some pts) ts noise).isSome := by
  obtain ⟨p, hmem, hlt⟩ := hp
  have hempty : pts.isEmpty = false := by
    cases pts with
    | nil => exact absurd rfl hne
    | cons a l => rfl
  have hfilter : p ∈ pts.filter fun q =>
      decide ((q.y * Nat.sqrt (imageData.length / 4) + q.x) * 4 < imageData.length - 3) := by
    rw [List.mem_filter]
    exact ⟨hmem, by simpa using hlt⟩
  have hpos : ¬ ((pts.filter fun q =>
      decide ((q.y * Nat.sqrt (imageData.length / 4) + q.x) * 4
        < imageData.length - 3)).length = 0) := by
    intro hzero
    rw [List.length_eq_zero] at hzero
    rw [hzero] at hfilter
    exact absurd hfilter (List.not_mem_nil p)
  unfold extractPPGSignal
  dsimp only
  rw [hempty]
  simp only [Bool.false_eq_true, if_false, hpos, Option.isSome_some]

/-- C6: `processFrame` returns `null` exactly when the inter-frame throttle
rejects the call, provided every contour the classifier emits is nonempty
with an in-bounds point (which `findContours` guarantees: components are
only kept above 100 pixels and their coordinates lie inside the image);
every non-throttled call returns a result object. -/
theorem process_frame_null_iff_throttled (st : RealState) (env : FrameEnv)
    (hc : ∀ pts, env.contour = some pts → pts ≠ [] ∧ ∃ p ∈ pts,
        (p.y * Nat.sqrt ((extractImageData env.width env.height).length / 4) + p.x) * 4
          < (extractImageData env.width env.height).length - 3) :
    ((processFrame st env).1 = none
      ↔ env.currentTime - st.lastProcessTime < processingInterval) := by
  by_cases hthr : env.currentTime - st.lastProcessTime < processingInterval
  · simp [processFrame, hthr]
  · simp only [hthr, iff_false]
    unfold processFrame
    rw [if_neg hthr]
    dsimp only
    cases hcon : env.contour with
    | none => simp [detectFinger]
    | some pts =>
      obtain ⟨hne, hp⟩ := hc pts hcon
      by_cases hdet : (detectFinger st.fd (some pts)).1.fingerDetected = false
      · rw [if_pos hdet]
        simp
      · rw [if_neg hdet]
        have hsome := extractPPGSignal_isSome (extractImageData env.width env.height)
          pts env.tsSeconds env.noise hne hp
        obtain ⟨s, hs⟩ := Option.isSome_iff_exists.mp hsome
        rw [hs]
        dsimp only
        by_cases hge : minValidSamples ≤ (addToBuffer st.signalBuffer s).length
        · rw [if_pos hge]
          simp
        · rw [if_neg hge]
          simp

/-- C6 witness: a concrete non-throttled accepted frame returns a result
object (the contour hypothesis holds for the 1×1 frame fixture). -/
theorem process_frame_null_iff_throttled_witness :
    (processFrame gState gEnv).1 ≠ none := by
  have hc : ∀ pts, gEnv.contour = some pts → pts ≠ [] ∧ ∃ p ∈ pts,
      (p.y * Nat.sqrt ((extractImageData gEnv.width gEnv.height).length / 4) + p.x) * 4
        < (extractImageData gEnv.width gEnv.height).length - 3 := by
    intro pts hpts
    have hd : pts = dummyContour := by
      have h0 : gEnv.contour = some dummyContour := rfl
      rw [h0] at hpts
      exact (Option.some_inj.mp hpts).symm
    subst hd
    constructor
    · with_unfolding_all decide
    · exact ⟨⟨0, 0⟩, by with_unfolding_all decide, by with_unfolding_all decide⟩
  intro hnone
  have h := (process_frame_null_iff_throttled gState gEnv hc).mp hnone
  revert h
  with_unfolding_all decide

/-! ## Stage-level error handling -/

/-- On any fault-free call, `calculateVitalSigns` never reports the `'error'`
quality: the gate yields `'insufficient_data'` and the full path yields a
label from the `assessSignalQuality` ladder. -/
theorem vitals_quality_ne_error (st : RealState) (env : FrameEnv)
    (h : env.vitalsThrow = false) :
    (calculateVitalSigns st env).1.quality ≠ "error" := by
  unfold calculateVitalSigns
  rw [h]
  simp only [Bool.false_eq_true, if_false]
  by_cases hlen : st.signalBuffer.length < minValidSamples
  · rw [if_pos hlen]
    dsimp only
    decide
  · rw [if_neg hlen]
    dsimp only
    unfold assessSignalQuality
    split_ifs <;> decide

/-- C8 (amended): when an exception occurs inside the `calculateVitalSigns`
stage of an accepted full-estimation frame, the stage's `catch` produces a
result with quality `'error'`, confidence 0 and `null` vitals — but no
message field (a user-facing message is attached only by `processFrame`'s
own top-level `catch`); the signal buffer keeps exactly the sample appended
before the stage ran, both histories are left unchanged by the failing
stage, and the session continues: any later fault-free accepted frame
produces a result again, never labelled `'error'`. -/
theorem stage_error_recovery (st : RealState) (env : FrameEnv) (sample : Sample)
    (hthr : ¬ (env.currentTime - st.lastProcessTime < processingInterval))
    (hdet : (detectFinger st.fd env.contour).1.fingerDetected = true)
    (hsig : extractPPGSignal (extractImageData env.width env.height) env.contour
        env.tsSeconds env.noise = some sample)
    (hfull : minValidSamples ≤ (addToBuffer st.signalBuffer sample).length)
    (hthrow : env.vitalsThrow = true) :
    ((processFrame st env).1.map Result.quality = some ("error")) ∧
    ((processFrame st env).1.map Result.confidence = some 0) ∧
    ((processFrame st env).1.map Result.heartRate = some none) ∧
    ((processFrame st env).1.map Result.bloodPressure = some none) ∧
    ((processFrame st env).1.map Result.message = some none) ∧
    (processFrame st env).2.signalBuffer = addToBuffer st.signalBuffer sample ∧
    (processFrame st env).2.heartRateHistory = st.heartRateHistory ∧
    (processFrame st env).2.bpHistory = st.bpHistory ∧
    (∀ env2 : FrameEnv, ∀ sample2 : Sample,
      ¬ (env2.currentTime - (processFrame st env).2.lastProcessTime < processingInterval) →
      (detectFinger (processFrame st env).2.fd env2.contour).1.fingerDetected = true →
      extractPPGSignal (extractImageData env2.width env2.height) env2.contour
          env2.tsSeconds env2.noise = some sample2 →
      env2.vitalsThrow = false →
      ((processFrame (processFrame st env).2 env2).1.isSome ∧
        (processFrame (processFrame st env).2 env2).1.map Result.quality
          ≠ some ("error"))) := by
  have hpf : processFrame st env
      = (some (fullResult (appendedState st env sample) ⟨none, none, 0, "error"⟩),
         appendedState st env sample) := by
    unfold processFrame
    rw [if_neg hthr]
    simp only [hdet, hsig, Bool.true_eq_false, if_neg, Bool.false_eq_true, not_false_iff]
    rw [if_pos hfull]
    show (some (fullResult (calculateVitalSigns (appendedState st env sample) env).2
        (calculateVitalSigns (appendedState st env sample) env).1),
        (calculateVitalSigns (appendedState st env sample) env).2) = _
    rw [show calculateVitalSigns (appendedState st env sample) env
        = (⟨none, none, 0, "error"⟩, appendedState st env sample) by
      unfold calculateVitalSigns
      rw [hthrow]
      rfl]
  rw [hpf]
  refine ⟨rfl, rfl, rfl, rfl, rfl, rfl, rfl, rfl, ?_⟩
  intro env2 sample2 hthr2 hdet2 hsig2 hthrow2
  set st2 := appendedState st env sample with hst2
  unfold processFrame
  rw [if_neg hthr2]
  simp only [hdet2, hsig2, Bool.true_eq_false, if_neg, Bool.false_eq_true, not_false_iff]
  by_cases hge : minValidSamples ≤ (addToBuffer st2.signalBuffer sample2).length
  · rw [if_pos hge]
    refine ⟨rfl, ?_⟩
    dsimp only [Option.map, fullResult]
    intro hq
    exact absurd (Option.some_inj.mp hq)
      (vitals_quality_ne_error _ env2 hthrow2)
  · rw [if_neg hge]
    refine ⟨rfl, ?_⟩
    dsimp only [Option.map, collectingResult]
    decide

/-- C8 witness: concrete accepted frame whose vital-signs stage throws — the
result is the no-message error record and the histories survive untouched;
the follow-up fault-free frame is processed normally. -/
theorem stage_error_recovery_witness :
    ((processFrame eState eEnv).1.map Result.quality = some ("error")) ∧
    ((processFrame eState eEnv).1.map Result.message = some none) ∧
    (processFrame eState eEnv).2.heartRateHistory = eState.heartRateHistory := by
  have h := stage_error_recovery eState eEnv s128
    (by with_unfolding_all decide)
    (by with_unfolding_all decide)
    (by with_unfolding_all decide)
    (by with_unfolding_all decide)
    rfl
  exact ⟨h.1, h.2.2.2.2.1, h.2.2.2.2.2.2.1⟩

/-- C8 (counterexample to the claim as stated): on the concrete faulting
frame the result carries quality `'error'` and confidence 0, but its
`message` field is absent — the stage-boundary catch in
`calculateVitalSigns` attaches no user-facing message, contradicting
"quality 'error' and confidence 0 with a message". -/
theorem stage_error_without_message_counterexample :
    ((processFrame eState eEnv).1.map Result.quality = some ("error")) ∧
    ((processFrame eState eEnv).1.map Result.confidence = some 0) ∧
    ((processFrame eState eEnv).1.map Result.message = some none) := by
  refine ⟨?_, ?_, ?_⟩ <;> with_unfolding_all decide

/-! ## Heart-rate smoothing and the returned value -/

/-- C5 (amended): in `RealPPGProcessor.calculateVitalSigns` the publicly
returned `heartRate` is the raw per-frame estimate produced by
`calculateHeartRate` on the conditioned buffer — the bounded heart-rate
history is updated with that estimate but is never consulted for the
returned value (no median or trailing-mean smoothing is applied by this
processor; the median smoothing of `getSmoothedHeartRate` exists only in
the simulated `AdvancedPPGProcessor`/`EnhancedPPGProcessor`). -/
theorem real_heart_rate_raw_passthrough (st : RealState) (env : FrameEnv)
    (hthrow : env.vitalsThrow = false)
    (hlen : ¬ (st.signalBuffer.length < minValidSamples)) :
    (calculateVitalSigns st env).1.heartRate
      = calculateHeartRate (applySignalProcessing (st.signalBuffer.map Sample.value))
          (st.signalBuffer.map Sample.timestamp) st.childAge ∧
    (∀ hr : ℤ,
      calculateHeartRate (applySignalProcessing (st.signalBuffer.map Sample.value))
          (st.signalBuffer.map Sample.timestamp) st.childAge = some hr →
      (calculateVitalSigns st env).2.heartRateHistory
        = updateHeartRateHistory st.heartRateHistory hr) := by
  unfold calculateVitalSigns
  rw [hthrow]
  simp only [Bool.false_eq_true, if_false]
  rw [if_neg hlen]
  constructor
  · rfl
  · intro hr hhr
    dsimp only
    rw [hhr]
    split <;> rfl

/-- C5 witness: on the concrete full buffer the returned `heartRate` field is
exactly the raw `calculateHeartRate` output. -/
theorem real_heart_rate_raw_passthrough_witness :
    ¬ (cState.signalBuffer.length < minValidSamples) ∧
    (calculateVitalSigns cState cEnv).1.heartRate
      = calculateHeartRate (applySignalProcessing (cState.signalBuffer.map Sample.value))
          (cState.signalBuffer.map Sample.timestamp) cState.childAge :=
  ⟨by with_unfolding_all decide,
   (real_heart_rate_raw_passthrough cState cEnv rfl (by with_unfolding_all decide)).1⟩

/-- C5 (counterexample to the claim as stated): on the concrete impulse-train
buffer with history `[100, 100]`, the full-estimation call returns heart
rate 70 while the updated history is `[100, 100, 70]`, whose median
(`getSmoothedHeartRate`, the source's own smoother) is 100 and whose
trailing mean is 90 — the single-frame estimate 70 passes through to the
caller unsmoothed. -/
theorem real_heart_rate_not_median_counterexample :
    (calculateVitalSigns cState cEnv).1.heartRate = some 70 ∧
    (calculateVitalSigns cState cEnv).2.heartRateHistory = [100, 100, 70] ∧
    getSmoothedHeartRate [100, 100, 70] = some 100 ∧
    meanOf ([100, 100, 70].map fun z : ℤ => (z : ℚ)) = 90 ∧
    (70 : ℤ) ≠ 100 ∧ (70 : ℚ) ≠ 90 := by
  refine ⟨?_, ?_, ?_, ?_, ?_, ?_⟩ <;> with_unfolding_all decide

/-! ## Blood-pressure plausibility band -/

theorem le_jsRound (a : ℤ) (q : ℚ) (h : (a : ℚ) ≤ q) : a ≤ jsRound q := by
  unfold jsRound
  rw [Int.le_floor]
  linarith

theorem jsRound_le (b : ℤ) (q : ℚ) (h : q ≤ (b : ℚ)) : jsRound q ≤ b := by
  unfold jsRound
  have hlt : ⌊q + 1/2⌋ < b + 1 := Int.floor_lt.mpr (by push_cast; linarith)
  omega

theorem clamp70140_bounds (B : ℚ) (h1 : 74 ≤ B) (h2 : B ≤ 130) :
    74 ≤ max 70 (min 140 B) ∧ max 70 (min 140 B) ≤ 130 :=
  ⟨le_max_of_le_right (le_min (by norm_num) h1),
   max_le (by norm_num) ((min_le_right _ _).trans h2)⟩

/-- The pre-compensation systolic estimate built from an age-clamped heart
rate always lands in `[74, 130]`, whatever the amplitude oracle and the raw
BPM were. -/
theorem calculateSystolicBP_bounds (amplitude raw : ℚ) (age : ℕ) :
    (74 : ℚ) ≤ calculateSystolicBP amplitude (jsRound (applyAgeConstraints age raw)) age ∧
    calculateSystolicBP amplitude (jsRound (applyAgeConstraints age raw)) age ≤ 130 := by
  unfold calculateSystolicBP getAgeAdjustment applyAgeConstraints
  by_cases h1 : age ≤ 1
  · simp only [if_pos h1]
    have hz1 := le_jsRound 100 (max 100 (min 160 raw)) (by push_cast; exact le_max_left _ _)
    have hz2 := jsRound_le 160 (max 100 (min 160 raw))
      (by push_cast; exact max_le (by norm_num) (min_le_left _ _))
    have hq1 : (100 : ℚ) ≤ (jsRound (max 100 (min 160 raw)) : ℚ) := by exact_mod_cast hz1
    have hq2 : ((jsRound (max (100:ℚ) (min 160 raw)) : ℤ) : ℚ) ≤ 160 := by exact_mod_cast hz2
    refine clamp70140_bounds _ ?_ ?_ <;> (split_ifs <;> first | omega | linarith)
  by_cases h3 : age ≤ 3
  · simp only [if_neg h1, if_pos h3]
    have hz1 := le_jsRound 80 (max 80 (min 140 raw)) (by push_cast; exact le_max_left _ _)
    have hz2 := jsRound_le 140 (max 80 (min 140 raw))
      (by push_cast; exact max_le (by norm_num) (min_le_left _ _))
    have hq1 : (80 : ℚ) ≤ (jsRound (max 80 (min 140 raw)) : ℚ) := by exact_mod_cast hz1
    have hq2 : ((jsRound (max (80:ℚ) (min 140 raw)) : ℤ) : ℚ) ≤ 140 := by exact_mod_cast hz2
    refine clamp70140_bounds _ ?_ ?_ <;> (split_ifs <;> first | omega | linarith)
  by_cases h5 : age ≤ 5
  · simp only [if_neg h1, if_neg h3, if_pos h5]
    have hz1 := le_jsRound 70 (max 70 (min 120 raw)) (by push_cast; exact le_max_left _ _)
    have hz2 := jsRound_le 120 (max 70 (min 120 raw))
      (by push_cast; exact max_le (by norm_num) (min_le_left _ _))
    have hq1 : (70 : ℚ) ≤ (jsRound (max 70 (min 120 raw)) : ℚ) := by exact_mod_cast hz1
    have hq2 : ((jsRound (max (70:ℚ) (min 120 raw)) : ℤ) : ℚ) ≤ 120 := by exact_mod_cast hz2
    refine clamp70140_bounds _ ?_ ?_ <;> (split_ifs <;> first | omega | linarith)
  by_cases h7 : age ≤ 7
  · simp only [if_neg h1, if_neg h3, if_neg h5, if_pos h7]
    have hz1 := le_jsRound 65 (max 65 (min 110 raw)) (by push_cast; exact le_max_left _ _)
    have hz2 := jsRound_le 110 (max 65 (min 110 raw))
      (by push_cast; exact max_le (by norm_num) (min_le_left _ _))
    have hq1 : (65 : ℚ) ≤ (jsRound (max 65 (min 110 raw)) : ℚ) := by exact_mod_cast hz1
    have hq2 : ((jsRound (max (65:ℚ) (min 110 raw)) : ℤ) : ℚ) ≤ 110 := by exact_mod_cast hz2
    refine clamp70140_bounds _ ?_ ?_ <;> (split_ifs <;> first | omega | linarith)
  · simp only [if_neg h1, if_neg h3, if_neg h5, if_neg h7]
    have hz1 := le_jsRound 60 (max 60 (min 100 raw)) (by push_cast; exact le_max_left _ _)
    have hz2 := jsRound_le 100 (max 60 (min 100 raw))
      (by push_cast; exact max_le (by norm_num) (min_le_left _ _))
    have hq1 : (60 : ℚ) ≤ (jsRound (max 60 (min 100 raw)) : ℚ) := by exact_mod_cast hz1
    have hq2 : ((jsRound (max (60:ℚ) (min 100 raw)) : ℤ) : ℚ) ≤ 100 := by exact_mod_cast hz2
    refine clamp70140_bounds _ ?_ ?_ <;> (split_ifs <;> first | omega | linarith)

/-- C7: whenever the blood-pressure estimator produces a value (its heart
rate coming from the age clamp of `calculateHeartRate`), the returned
systolic lies in the plausible band `[70, 140] mmHg` for every configured
temperature in `[35, 42]` — the `±2 mmHg/°C` compensation around 37 °C,
applied to systolic and diastolic alike after the `[70,140]` clamp, cannot
push it outside; the diastolic is the compensated randomized ratio value. -/
theorem systolic_within_fixed_band (amplitude raw temperature rand : ℚ) (age : ℕ)
    (htemp : 35 ≤ temperature ∧ temperature ≤ 42) :
    ∃ bp : BP,
      calculateBloodPressure amplitude (some (jsRound (applyAgeConstraints age raw)))
          temperature age rand = some bp ∧
      (70 : ℤ) ≤ bp.systolic ∧ bp.systolic ≤ 140 ∧
      bp.diastolic = jsRound (applyTemperatureCompensation temperature
        ((calculateDiastolicBP
          (calculateSystolicBP amplitude (jsRound (applyAgeConstraints age raw)) age)
          rand : ℤ) : ℚ)) := by
  obtain ⟨ht1, ht2⟩ := htemp
  obtain ⟨hs1, hs2⟩ := calculateSystolicBP_bounds amplitude raw age
  refine ⟨_, rfl, ?_, ?_, rfl⟩
  · exact le_jsRound 70 _ (by unfold applyTemperatureCompensation; push_cast; linarith)
  · exact jsRound_le 140 _ (by unfold applyTemperatureCompensation; push_cast; linarith)

/-- C7 witness: at amplitude 0.2, raw 100 BPM, age 0, temperature 42 °C and
median random draw, the estimator returns `{systolic := 90, diastolic :=
62}`, with 90 inside the plausible band. -/
theorem systolic_within_fixed_band_witness :
    calculateBloodPressure 0.2 (some (jsRound (applyAgeConstraints 0 100))) 42 0 0.5
      = some ⟨90, 62⟩ ∧
    (∃ bp : BP,
      calculateBloodPressure 0.2 (some (jsRound (applyAgeConstraints 0 100))) 42 0 0.5
        = some bp ∧ (70 : ℤ) ≤ bp.systolic ∧ bp.systolic ≤ 140) := by
  constructor
  · with_unfolding_all decide
  · obtain ⟨bp, h1, h2, h3, h4⟩ :=
      systolic_within_fixed_band 0.2 100 42 0.5 0 (by norm_num)
    exact ⟨bp, h1, h2, h3⟩

end PulseKids
